import Mathlib

/-!
Verification of the audioconnector-realtime-shim voice gateway.

Each definition below is a shallow embedding of one function of the
TypeScript source; machine integers are modelled as Nat/Int with explicit
wrapping where the JavaScript semantics makes it observable, WebSocket and
event-emitter side effects are modelled as explicit effect lists, and
asynchronous results (feature-flag lookups, moderation calls) are passed in
as Except values.
-/

namespace AudioConnectorShim

/-! ## Audio codec

From the `OpenAIRealtimeService` revision holding the G.711 mu-law codec
(`convertPCMUtoPCM16` and `convertPCM16ToPCMU`).  Both directions are
per-sample table/loop bodies; we embed the per-byte / per-sample bodies.
-/

/-- Decode of one mu-law byte, from the loop body that builds `mulawToPcm`
inside `convertPCMUtoPCM16`: bit 7 is the sign, bits 6-4 the exponent,
bits 3-0 the mantissa; `sample = mantissa << (exponent+3)`, plus
`1 << (exponent+2)` when the exponent is positive, minus the bias 132,
times the sign, clamped to the signed 16-bit range.  Note the byte is used
as-is: the source never complements it. -/
def mulawToPcm (b : Nat) : Int :=
  let sign : Int := if b &&& 0x80 ≠ 0 then -1 else 1
  let exponent : Nat := (b &&& 0x70) >>> 4
  let mantissa : Nat := b &&& 0x0F
  let base : Nat := mantissa <<< (exponent + 3)
  let withStep : Nat := if exponent > 0 then base + (1 <<< (exponent + 2)) else base
  let sample : Int := ((withStep : Int) - 132) * sign
  max (-32768) (min 32767 sample)

/-- The 32-bit two's-complement pattern of a JavaScript number used as an
int32 operand of a bitwise operator. -/
def uint32 (x : Int) : Nat := (x.emod 4294967296).toNat

/-- Encode of one 16-bit sample, from the loop body of `convertPCM16ToPCMU`.
The source computes `sign = (sample >> 8) & 0x80` with JavaScript 32-bit
bitwise semantics; since the mask keeps only bit 7 of the shifted value,
the arithmetic and logical shifts of the 32-bit pattern agree, which is how
`uint32` enters.  The exponent search `exponent = 1; while (sample >=
(512 << exponent) && exponent < 7) exponent++` (entered when
`sample >= 256`) is written out as the equivalent comparison chain.  The
final byte is the ones complement of the packed value as stored into a
`Uint8Array`, i.e. reduced mod 256. -/
def convertPCM16ToPCMUByte (sample0 : Int) : Nat :=
  let sign : Nat := (uint32 sample0 >>> 8) &&& 0x80
  let sample1 : Int := if sign ≠ 0 then -sample0 else sample0
  let sample2 : Int := if sample1 > 32635 then 32635 else sample1
  let sample3 : Int := sample2 + 0x84
  let exponent : Nat :=
    if sample3 < 256 then 0
    else if sample3 < 1024 then 1
    else if sample3 < 2048 then 2
    else if sample3 < 4096 then 3
    else if sample3 < 8192 then 4
    else if sample3 < 16384 then 5
    else if sample3 < 32768 then 6
    else 7
  let mantissa : Nat := (sample3.toNat >>> (exponent + 3)) &&& 0x0F
  let packed : Nat := sign ||| (exponent <<< 4) ||| mantissa
  (Int.emod (-(packed : Int) - 1) 256).toNat

/-- Reference decode, written from the words of claim C6 (sign from bit 7,
exponent from bits 6-4, mantissa from bits 3-0, `m << (e+3)` plus
`1 << (e+2)` when `e > 0`, bias 132 subtracted, sign applied, clamped),
using arithmetic in place of bit operations. -/
def decodeRefC6 (b : Nat) : Int :=
  let exponent : Nat := b / 16 % 8
  let mantissa : Nat := b % 16
  let magnitude : Nat :=
    mantissa * 2 ^ (exponent + 3) + (if exponent > 0 then 2 ^ (exponent + 2) else 0)
  let value : Int := (magnitude : Int) - 132
  let signed : Int := if b / 128 % 2 = 1 then -value else value
  max (-32768) (min 32767 signed)

set_option maxRecDepth 4096 in
/-- Claim C6: for each of the 256 possible input bytes, the decode of the
source equals the reference value described by the claim. -/
theorem c6_decode_matches_reference : ∀ b : Fin 256, mulawToPcm b.val = decodeRefC6 b.val := by
  decide

/-- Claim C5 (code bug): the round trip is not bounded by the quantization
step.  At the sample 0 the encoder produces the complemented byte 255, which
the decoder reads without complementing, so the round trip returns -15740:
an error of 15740, far above the step 8 of the segment containing 0. -/
theorem c5_roundtrip_code_bug :
    convertPCM16ToPCMUByte 0 = 255 ∧
    mulawToPcm (convertPCM16ToPCMUByte 0) = -15740 ∧
    ¬ ((mulawToPcm (convertPCM16ToPCMUByte 0) - 0).natAbs ≤ 8) := by
  decide

/-! ## Upstream bridge (`src/src/services/openai-realtime-service.ts`)

The mutable fields of `OpenAIRealtimeService` that the handlers below touch
become a state record; `this._ws.send(...)`, `this.emit(...)` and
`setTimeout` become explicit effects.  Audio payloads are byte lists.
-/

/-- Commands sent on the backend WebSocket. -/
inductive WsOut where
  | sessionUpdate
  | inputAudioAppend (audio : List Nat)
  | inputAudioCommit
  | inputAudioClear
  | itemCreateUserText (text : String)
  | itemCreateAssistantText (text : String)
  | itemCreateFunctionOutput (callId : String) (output : String)
  | responseCreate (instructions : Option String)
  | responseCancel
deriving DecidableEq

/-- Events the service emits to its owner. -/
inductive Emitted where
  | speechStarted
  | speechStopped
  | transcript (text : String)
  | audioResponse (audio : List Nat)
  | textDelta (delta : String)
  | textResponse (text : String)
  | responseComplete
  | sessionTimeout (reason : String)
deriving DecidableEq

/-- One observable side effect of a handler: a WebSocket send, an emitted
event, or a deferred batch of sends (`setTimeout`). -/
inductive Effect where
  | send (m : WsOut)
  | emit (e : Emitted)
  | schedule (delayMs : Nat) (sends : List WsOut)
deriving DecidableEq

/-- The mutable per-connection fields of `OpenAIRealtimeService`:
`_ws` (null or not), `_isConnected`, `audioBuffer`, `currentResponseId`,
`isGeneratingResponse`, `shouldInterruptResponse`, `lastActivityTime` and
`lastUserSpeechTime` (epoch milliseconds). -/
structure OAIState where
  wsPresent : Bool
  isConnected : Bool
  audioBuffer : List (List Nat)
  currentResponseId : Option String
  isGeneratingResponse : Bool
  shouldInterruptResponse : Bool
  lastActivityTime : Nat
  lastUserSpeechTime : Nat
deriving DecidableEq

/-- `cancelCurrentResponse`: returns unless a socket is present, connected
and a current response identifier exists; otherwise sends `response.cancel`
and clears the pending audio buffer.  It does not touch
`currentResponseId`. -/
def cancelCurrentResponse (s : OAIState) : OAIState × List Effect :=
  if s.wsPresent && s.isConnected && s.currentResponseId.isSome then
    ({ s with audioBuffer := [] }, [Effect.send WsOut.responseCancel])
  else (s, [])

/-- The `input_audio_buffer.speech_started` branch of `handleMessage`:
stamps activity and last-speech times, and if a response is being generated
sets the interruption flag and cancels, then emits `speech_started`. -/
def handleSpeechStarted (s : OAIState) (now : Nat) : OAIState × List Effect :=
  let s1 := { s with lastActivityTime := now, lastUserSpeechTime := now }
  if s1.isGeneratingResponse then
    let s2 := { s1 with shouldInterruptResponse := true }
    let r := cancelCurrentResponse s2
    (r.1, r.2 ++ [Effect.emit Emitted.speechStarted])
  else (s1, [Effect.emit Emitted.speechStarted])

/-- The `response.created` branch of `handleMessage`: records the new
current response identifier, raises the generating flag, lowers the
interruption flag and resets the accumulation buffer, unconditionally. -/
def handleResponseCreated (s : OAIState) (rid : String) : OAIState :=
  { s with currentResponseId := some rid
         , isGeneratingResponse := true
         , shouldInterruptResponse := false
         , audioBuffer := [] }

/-- The `response.done` branch of `handleMessage`: lowers the generating
flag, emits `response_complete` only when the interruption flag is not set,
then clears the current response identifier and stamps activity. -/
def handleResponseDone (s : OAIState) (now : Nat) : OAIState × List Effect :=
  let effs := if s.shouldInterruptResponse then ([] : List Effect)
              else [Effect.emit Emitted.responseComplete]
  ({ s with isGeneratingResponse := false
          , currentResponseId := none
          , lastActivityTime := now }, effs)

/-- `sendAudio`: a no-op when the socket is absent or not connected;
otherwise, when a response is being generated and the last user speech was
under 1000 ms ago, only the interruption flag is set, and in every non-early
path the frame is forwarded as `input_audio_buffer.append`. -/
def sendAudio (s : OAIState) (now : Nat) (audio : List Nat) : OAIState × List Effect :=
  if !(s.wsPresent && s.isConnected) then (s, [])
  else
    let timeSinceLastSpeech := now - s.lastUserSpeechTime
    let s1 := if s.isGeneratingResponse && decide (timeSinceLastSpeech < 1000)
              then { s with shouldInterruptResponse := true } else s
    (s1, [Effect.send (WsOut.inputAudioAppend audio)])

/-- `createResponse`: a no-op when disconnected or a response is already in
progress; otherwise requests a response. -/
def createResponse (s : OAIState) : List Effect :=
  if !(s.wsPresent && s.isConnected) then []
  else if s.isGeneratingResponse then []
  else [Effect.send (WsOut.responseCreate (some "Please respond naturally and helpfully."))]

/-- `sendText`: a no-op when disconnected or a response is in progress;
otherwise creates a user message item and calls `createResponse`. -/
def sendText (s : OAIState) (text : String) : OAIState × List Effect :=
  if !(s.wsPresent && s.isConnected) then (s, [])
  else if s.isGeneratingResponse then (s, [])
  else (s, [Effect.send (WsOut.itemCreateUserText text)] ++ createResponse s)

/-- `commitAudio`: a no-op when disconnected, or when generating or
interrupting; otherwise commits the input audio buffer. -/
def commitAudio (s : OAIState) : OAIState × List Effect :=
  if !(s.wsPresent && s.isConnected) then (s, [])
  else if s.isGeneratingResponse || s.shouldInterruptResponse then (s, [])
  else (s, [Effect.send WsOut.inputAudioCommit])

/-- `clearAudioBuffer`: a no-op when disconnected; otherwise clears the
input audio buffer. -/
def clearAudioBuffer (s : OAIState) : OAIState × List Effect :=
  if !(s.wsPresent && s.isConnected) then (s, [])
  else (s, [Effect.send WsOut.inputAudioClear])

/-- Claim C1 counterexample state: connected, mid-generation of response
`r1`, with buffered response audio. -/
def s1c : OAIState :=
  { wsPresent := true, isConnected := true, audioBuffer := [[1, 2]]
  , currentResponseId := some "r1", isGeneratingResponse := true
  , shouldInterruptResponse := false, lastActivityTime := 0, lastUserSpeechTime := 0 }

/-- Claim C1 is false as stated: a barge-in cancellation does not clear the
current response identifier.  From `s1c`, `cancelCurrentResponse` leaves the
identifier at `r1` (not null), and the next `response.created` assigns `r2`
while the old identifier was never cleared. -/
theorem c1_counterexample :
    (cancelCurrentResponse s1c).1.currentResponseId = some "r1" ∧
    ¬ ((cancelCurrentResponse s1c).1.currentResponseId = none) ∧
    (handleResponseCreated (cancelCurrentResponse s1c).1 "r2").currentResponseId = some "r2" := by
  decide

/-- Claim C1 as amended: the bridge holds at most one non-null current
response identifier; `response.created` supersedes any current identifier
and resets the accumulation buffer; a barge-in cancellation leaves the
current response identifier unchanged (it only sends a cancel and clears
the buffered audio); the identifier is cleared when `response.done`
arrives. -/
theorem c1_amended (s : OAIState) (rid : String) (now : Nat) :
    s.currentResponseId.toList.length ≤ 1 ∧
    (handleResponseCreated s rid).currentResponseId = some rid ∧
    (handleResponseCreated s rid).audioBuffer = [] ∧
    (cancelCurrentResponse s).1.currentResponseId = s.currentResponseId ∧
    (handleResponseDone s now).1.currentResponseId = none := by
  refine ⟨?_, rfl, rfl, ?_, rfl⟩
  · cases s.currentResponseId <;> simp
  · unfold cancelCurrentResponse
    split <;> rfl

/-- Claim C2 counterexample state: connected, generating, last user speech
at time 0, with one buffered response chunk. -/
def s2c : OAIState :=
  { wsPresent := true, isConnected := true, audioBuffer := [[9]]
  , currentResponseId := some "r1", isGeneratingResponse := true
  , shouldInterruptResponse := false, lastActivityTime := 0, lastUserSpeechTime := 0 }

/-- Claim C2 is false as stated: calling `sendAudio` at time 500 (500 ms
after the last speech, mid-generation) emits only the audio append, no
`response.cancel`, and leaves the buffered response audio in place. -/
theorem c2_counterexample :
    (sendAudio s2c 500 [7]).2 = [Effect.send (WsOut.inputAudioAppend [7])] ∧
    ¬ (Effect.send WsOut.responseCancel ∈ (sendAudio s2c 500 [7]).2) ∧
    (sendAudio s2c 500 [7]).1.audioBuffer = [[9]] := by
  decide

/-- Claim C2 as amended: under barge-in conditions (connected, a response
generating, last speech under one second ago) `sendAudio` sets the
interruption flag and forwards the frame; it issues no cancel itself and
does not discard the buffered response audio (the cancel and discard are
performed by the speech-started handler instead). -/
theorem c2_amended (s : OAIState) (now : Nat) (audio : List Nat)
    (hws : s.wsPresent = true) (hconn : s.isConnected = true)
    (hgen : s.isGeneratingResponse = true)
    (hrecent : now - s.lastUserSpeechTime < 1000) :
    sendAudio s now audio =
      ({ s with shouldInterruptResponse := true },
       [Effect.send (WsOut.inputAudioAppend audio)]) := by
  simp [sendAudio, hws, hconn, hgen, hrecent]

/-- Claim C2 amended witness: the amended statement evaluated at `s2c`,
time 500, frame `[7]`. -/
theorem c2_amended_witness :
    sendAudio s2c 500 [7] =
      ({ s2c with shouldInterruptResponse := true },
       [Effect.send (WsOut.inputAudioAppend [7])]) :=
  c2_amended s2c 500 [7] rfl rfl rfl (by decide)

/-- Claim C9: each public send operation is a no-op (state unchanged, no
effect) when the socket is absent or the connected flag is false. -/
theorem c9_sends_noop_when_disconnected (s : OAIState) (now : Nat) (audio : List Nat)
    (text : String) (h : s.wsPresent = false ∨ s.isConnected = false) :
    sendAudio s now audio = (s, []) ∧ sendText s text = (s, []) ∧
    commitAudio s = (s, []) ∧ clearAudioBuffer s = (s, []) := by
  rcases h with h | h <;>
    simp [sendAudio, sendText, commitAudio, clearAudioBuffer, h]

/-- Claim C9 disconnected state used by the witness. -/
def s9c : OAIState :=
  { wsPresent := false, isConnected := false, audioBuffer := []
  , currentResponseId := none, isGeneratingResponse := false
  , shouldInterruptResponse := false, lastActivityTime := 0, lastUserSpeechTime := 0 }

/-- Claim C9 witness: the no-op property evaluated at the disconnected
state `s9c`. -/
theorem c9_witness :
    sendAudio s9c 0 [1] = (s9c, []) ∧ sendText s9c "hello" = (s9c, []) ∧
    commitAudio s9c = (s9c, []) ∧ clearAudioBuffer s9c = (s9c, []) :=
  c9_sends_noop_when_disconnected s9c 0 [1] "hello" (Or.inl rfl)

/-! ## Moderation gating of finalized transcripts -/

/-- `checkModeration`: the moderation API call is passed in as an `Except`;
the source catches its own errors and returns `false` (content allowed)
when the call fails. -/
def checkModeration (apiResult : Except Unit Bool) : Bool :=
  match apiResult with
  | Except.ok flagged => flagged
  | Except.error _ => false

/-- `sendModerationRejectionMessage`: a no-op when disconnected; otherwise
creates an assistant message with the fixed rejection text and requests a
verbatim response for it. -/
def sendModerationRejectionMessage (s : OAIState) : List WsOut :=
  if s.wsPresent && s.isConnected then
    [WsOut.itemCreateAssistantText "I\x27m sorry, I cannot help you with that request."
    , WsOut.responseCreate (some "Please respond with the exact text provided without modification.")]
  else []

/-- The `conversation.item.input_audio_transcription.completed` branch of
`handleMessage`.  The feature-flag lookup (`getFeatureValue` resolving to a
value or null, or rejecting) and the moderation call are passed in as
`Except` values; the outer `catch` of the source maps a lookup failure to
emitting the transcript unchanged.  When the content is flagged the source
cancels any in-flight response, raises the interruption flag, and after
200 ms sends the rejection and lowers the flag again; the returned state is
the one after that deferred callback has run. -/
def handleTranscriptionCompleted (s : OAIState) (now : Nat) (transcriptText : String)
    (flagValue : Except Unit (Option String)) (apiResult : Except Unit Bool) :
    OAIState × List Effect :=
  if transcriptText = "" then (s, [])
  else
    let s0 := { s with lastActivityTime := now }
    match flagValue with
    | Except.error _ => (s0, [Effect.emit (Emitted.transcript transcriptText)])
    | Except.ok v =>
      if v = some "true" then
        if checkModeration apiResult then
          let c := if s0.isGeneratingResponse && s0.currentResponseId.isSome
                   then cancelCurrentResponse s0 else (s0, [])
          let s2 := { c.1 with shouldInterruptResponse := true }
          ({ s2 with shouldInterruptResponse := false },
           c.2 ++ [Effect.schedule 200 (sendModerationRejectionMessage s2)])
        else (s0, [Effect.emit (Emitted.transcript transcriptText)])
      else (s0, [Effect.emit (Emitted.transcript transcriptText)])

/-- Claim C4: with moderation enabled and the text flagged, the transcript
event is suppressed, any in-flight response is cancelled and the fixed
rejection turn is injected after 200 ms; when the flag lookup fails, the
flag is off, or the safety check itself errors, the transcript is emitted
unchanged. -/
theorem c4_moderation_gating (s : OAIState) (now : Nat) (t : String) (ht : t ≠ "") :
    (∀ apiResult, (handleTranscriptionCompleted s now t (Except.error ()) apiResult).2 =
      [Effect.emit (Emitted.transcript t)]) ∧
    (∀ v apiResult, v ≠ some "true" →
      (handleTranscriptionCompleted s now t (Except.ok v) apiResult).2 =
        [Effect.emit (Emitted.transcript t)]) ∧
    ((handleTranscriptionCompleted s now t (Except.ok (some "true")) (Except.error ())).2 =
      [Effect.emit (Emitted.transcript t)]) ∧
    ((handleTranscriptionCompleted s now t (Except.ok (some "true")) (Except.ok false)).2 =
      [Effect.emit (Emitted.transcript t)]) ∧
    (s.wsPresent = true → s.isConnected = true → s.isGeneratingResponse = true →
      s.currentResponseId.isSome = true →
      (handleTranscriptionCompleted s now t (Except.ok (some "true")) (Except.ok true)).2 =
        [Effect.send WsOut.responseCancel
        , Effect.schedule 200
            [WsOut.itemCreateAssistantText "I\x27m sorry, I cannot help you with that request."
            , WsOut.responseCreate
                (some "Please respond with the exact text provided without modification.")]]) := by
  refine ⟨?_, ?_, ?_, ?_, ?_⟩
  · intro apiResult
    simp [handleTranscriptionCompleted, ht]
  · intro v apiResult hv
    simp [handleTranscriptionCompleted, ht, hv]
  · simp [handleTranscriptionCompleted, checkModeration, ht]
  · simp [handleTranscriptionCompleted, checkModeration, ht]
  · intro hws hconn hgen hsome
    simp [handleTranscriptionCompleted, checkModeration, ht, hws, hconn, hgen, hsome,
      cancelCurrentResponse, sendModerationRejectionMessage]

/-- Claim C4 state used by the witness: connected, mid-generation. -/
def s4c : OAIState :=
  { wsPresent := true, isConnected := true, audioBuffer := [[3]]
  , currentResponseId := some "r1", isGeneratingResponse := true
  , shouldInterruptResponse := false, lastActivityTime := 0, lastUserSpeechTime := 0 }

/-- Claim C4 witness: the flagged branch evaluated at `s4c` with a concrete
transcript. -/
theorem c4_witness :
    (handleTranscriptionCompleted s4c 5 "bad words" (Except.ok (some "true")) (Except.ok true)).2 =
      [Effect.send WsOut.responseCancel
      , Effect.schedule 200
          [WsOut.itemCreateAssistantText "I\x27m sorry, I cannot help you with that request."
          , WsOut.responseCreate
              (some "Please respond with the exact text provided without modification.")]] :=
  (c4_moderation_gating s4c 5 "bad words" (by decide)).2.2.2.2 rfl rfl rfl rfl

/-! ## Intent service (`src/src/services/intent-service.ts`) -/

/-- One supported-intent entry. -/
structure SupportedIntent where
  name : String
  description : String
  botInstructionsFile : Option String
deriving DecidableEq

/-- `loadSupportedIntents`, run in the constructor: the table receives the
single `cancel_subscription` entry. -/
def loadSupportedIntents : List (String × SupportedIntent) :=
  [("cancel_subscription",
    { name := "cancel_subscription"
    , description := "Handle subscription cancellation requests"
    , botInstructionsFile := some "Cancel_Subscription_Agent_Instructions.md" })]

/-- `getIntentConfig`: map lookup, null when absent. -/
def getIntentConfig (intent : String) : Option SupportedIntent :=
  loadSupportedIntents.lookup intent

/-! ## Conversation-mode router (`BotResource`, revision with intent routing)

Instruction text is loaded from markdown files on disk by
`InstructionLoaderService`; the text is opaque here, an instruction set is
identified by the file it is loaded from.
-/

/-- The current conversation mode of `BotResource`. -/
inductive Mode where
  | greeting
  | intent
  | bot (taskId : String)
  | handover
deriving DecidableEq

/-- An instruction set, identified by its markdown source file. -/
inductive Instructions where
  | fromFile (fileName : String)
deriving DecidableEq

/-- `getGreetingInstructions` of `InstructionLoaderService`. -/
def getGreetingInstructions : Instructions := Instructions.fromFile "Greeting_Agent_Instructions.md"

/-- `getIntentInstructions` of `InstructionLoaderService`. -/
def getIntentInstructions : Instructions := Instructions.fromFile "Intent_Agent_Instructions.md"

/-- `getHandoverInstructions` of `InstructionLoaderService`. -/
def getHandoverInstructions : Instructions := Instructions.fromFile "Handover_Agent_Instructions.md"

/-- The mutable fields of `BotResource` the router touches: current mode,
the awaiting-handover-completion flag, the new-session flag, whether the
backend service is connected, and the active instruction set. -/
structure BotState where
  currentMode : Mode
  waitingForHandoverResponse : Bool
  isNewSession : Bool
  oaiConnected : Bool
  currentInstructions : Instructions
deriving DecidableEq

/-- Effects of the router: a `session.update` push of instructions, the
re-emitted routing event, and the deferred session termination. -/
inductive BotEffect where
  | sessionUpdate (instr : Instructions)
  | emitIntentRouted (intent : String) (isHandover : Bool)
  | scheduleSessionEnd (delayMs : Nat) (reason : String)
deriving DecidableEq

/-- `setBotMode`: switches to the task bot mode named by the configuration
and loads its instructions, falling back to the intent instructions when
the configuration names no file. -/
def setBotMode (s : BotState) (cfg : SupportedIntent) : BotState :=
  { s with currentMode := Mode.bot cfg.name
         , currentInstructions :=
             match cfg.botInstructionsFile with
             | some f => Instructions.fromFile f
             | none => getIntentInstructions }

/-- `setHandoverMode`: switches to handover and loads the handover
instructions. -/
def setHandoverMode (s : BotState) : BotState :=
  { s with currentMode := Mode.handover, currentInstructions := getHandoverInstructions }

/-- `updateSessionInstructions`: pushes a `session.update` with the current
instructions, but only when the backend service is connected. -/
def updateSessionInstructions (s : BotState) : List BotEffect :=
  if s.oaiConnected then [BotEffect.sessionUpdate s.currentInstructions] else []

/-- `handleIntentRouting`: in whatever mode the router currently is, picks
the task bot mode when a configuration exists for the reported intent
(confidence is only logged) and otherwise switches to handover and arms the
awaiting-completion flag; then pushes the new instructions, clears the
new-session flag, and re-emits the routing event. -/
def handleIntentRouting (s : BotState) (intent : String) : BotState × List BotEffect :=
  let s1 := match getIntentConfig intent with
    | some cfg => setBotMode s cfg
    | none => { setHandoverMode s with waitingForHandoverResponse := true }
  let pushEffs := updateSessionInstructions s1
  ({ s1 with isNewSession := false },
   pushEffs ++ [BotEffect.emitIntentRouted intent (s1.currentMode == Mode.handover)])

/-- The `response_complete` handler of `BotResource`: while in handover and
awaiting completion, disarms the flag and schedules the session end with
reason `handover_complete` after 1000 ms; otherwise nothing. -/
def handleResponseCompleteBot (s : BotState) : BotState × List BotEffect :=
  if s.currentMode == Mode.handover && s.waitingForHandoverResponse then
    ({ s with waitingForHandoverResponse := false },
     [BotEffect.scheduleSessionEnd 1000 "handover_complete"])
  else (s, [])

/-- Claim C3: on an intent-routing result in a non-terminal mode of a
connected session, the router switches to the task bot exactly when a
configuration exists for the intent (regardless of confidence) and
otherwise to handover with the awaiting-completion flag armed, pushing the
new instructions in both cases; and in handover with the flag armed, the
next response-complete schedules termination with reason
`handover_complete` after 1000 ms. -/
theorem c3_intent_routing (s : BotState) (intent : String)
    (hconn : s.oaiConnected = true) (_hmode : s.currentMode ≠ Mode.handover) :
    (∀ cfg, getIntentConfig intent = some cfg →
      (handleIntentRouting s intent).1.currentMode = Mode.bot cfg.name ∧
      BotEffect.sessionUpdate (handleIntentRouting s intent).1.currentInstructions ∈
        (handleIntentRouting s intent).2) ∧
    (getIntentConfig intent = none →
      (handleIntentRouting s intent).1.currentMode = Mode.handover ∧
      (handleIntentRouting s intent).1.waitingForHandoverResponse = true ∧
      BotEffect.sessionUpdate getHandoverInstructions ∈ (handleIntentRouting s intent).2) ∧
    (∀ s2 : BotState, s2.currentMode = Mode.handover → s2.waitingForHandoverResponse = true →
      handleResponseCompleteBot s2 =
        ({ s2 with waitingForHandoverResponse := false },
         [BotEffect.scheduleSessionEnd 1000 "handover_complete"])) := by
  refine ⟨?_, ?_, ?_⟩
  · intro cfg hcfg
    simp [handleIntentRouting, hcfg, setBotMode, updateSessionInstructions, hconn]
  · intro hnone
    simp [handleIntentRouting, hnone, setHandoverMode, updateSessionInstructions, hconn,
      getHandoverInstructions]
  · intro s2 h1 h2
    simp [handleResponseCompleteBot, h1, h2]

/-- Claim C3 router state used by the witnesses: intent mode, connected. -/
def bs3c : BotState :=
  { currentMode := Mode.intent, waitingForHandoverResponse := false
  , isNewSession := false, oaiConnected := true
  , currentInstructions := getIntentInstructions }

/-- Claim C3 witness: from intent mode, an unsupported intent routes to
handover with the flag armed and the handover instructions pushed. -/
theorem c3_witness :
    (handleIntentRouting bs3c "unknown_intent").1.currentMode = Mode.handover ∧
    (handleIntentRouting bs3c "unknown_intent").1.waitingForHandoverResponse = true ∧
    BotEffect.sessionUpdate getHandoverInstructions ∈ (handleIntentRouting bs3c "unknown_intent").2 :=
  (c3_intent_routing bs3c "unknown_intent" rfl (by decide)).2.1 rfl

/-- Claim C10: after construction the supported-intent table holds exactly
the `cancel_subscription` entry; `getIntentConfig` is non-null exactly on
`cancel_subscription`; every other intent takes the no-configuration branch
of the router and lands in handover. -/
theorem c10_single_supported_intent :
    loadSupportedIntents.length = 1 ∧
    loadSupportedIntents.map Prod.fst = ["cancel_subscription"] ∧
    (∀ i : String, (getIntentConfig i).isSome = true ↔ i = "cancel_subscription") ∧
    (∀ (s : BotState) (i : String), i ≠ "cancel_subscription" →
      (handleIntentRouting s i).1.currentMode = Mode.handover) := by
  refine ⟨rfl, rfl, ?_, ?_⟩
  · intro i
    constructor
    · intro h
      rcases hbeq : (i == "cancel_subscription") with _ | _
      · simp [getIntentConfig, loadSupportedIntents, List.lookup, hbeq] at h
      · exact eq_of_beq hbeq
    · intro h
      subst h
      rfl
  · intro s i hne
    have hbeq : (i == "cancel_subscription") = false := beq_eq_false_iff_ne.mpr hne
    have hnone : getIntentConfig i = none := by
      simp [getIntentConfig, loadSupportedIntents, List.lookup, hbeq]
    simp [handleIntentRouting, hnone, setHandoverMode]

/-- Claim C10 router state used by the witness. -/
def bs10c : BotState :=
  { currentMode := Mode.intent, waitingForHandoverResponse := false
  , isNewSession := false, oaiConnected := true
  , currentInstructions := getIntentInstructions }

/-- Claim C10 witness: `cancel_subscription` is configured, and the
unlisted catalog intent `refund_request` routes to handover. -/
theorem c10_witness :
    (getIntentConfig "cancel_subscription").isSome = true ∧
    (handleIntentRouting bs10c "refund_request").1.currentMode = Mode.handover :=
  ⟨(c10_single_supported_intent.2.2.1 "cancel_subscription").mpr rfl,
   c10_single_supported_intent.2.2.2 bs10c "refund_request" (by decide)⟩

/-! ## WebSocket server (`src/src/websocket/server.ts`) -/

/-- Whether `pat` is a prefix of `text`, on character lists. -/
def startsWithChars : List Char → List Char → Bool
  | [], _ => true
  | _ :: _, [] => false
  | c :: cs, d :: ds => (c == d) && startsWithChars cs ds

/-- Whether `pat` occurs somewhere in `text`, on character lists. -/
def occursInChars (pat : List Char) : List Char → Bool
  | [] => startsWithChars pat []
  | d :: ds => startsWithChars pat (d :: ds) || occursInChars pat ds

/-- The JavaScript `url.includes(pat)` substring test. -/
def strIncludes (url pat : String) : Bool := occursInChars pat.data url.data

/-- The result of `verifyRequestSignature` as the upgrade handler reads it:
the `code` field either is or is not the string `VERIFIED`. -/
inductive VerifyCode where
  | verified
  | failed (reason : String)
deriving DecidableEq

/-- Observable actions of the HTTP upgrade handler. -/
inductive UpgradeEffect where
  | runSignatureVerification
  | writeHttp401
  | destroySocket
  | upgradeConnection
deriving DecidableEq

/-- The `upgrade` handler of `Server.start`: a URL containing `/test` is
upgraded with no verification at all (the sole gate is the URL text; no
environment or build flag is consulted); otherwise the signature is
verified, a non-`VERIFIED` result gets a 401 and a destroyed socket, and a
`VERIFIED` result is upgraded. -/
def handleUpgrade (url : String) (verifyResult : VerifyCode) : List UpgradeEffect :=
  if strIncludes url "/test" then [UpgradeEffect.upgradeConnection]
  else
    UpgradeEffect.runSignatureVerification ::
      (if verifyResult = VerifyCode.verified then [UpgradeEffect.upgradeConnection]
       else [UpgradeEffect.writeHttp401, UpgradeEffect.destroySocket])

/-- An inbound WebSocket frame: raw binary audio or a JSON text message. -/
inductive InboundFrame where
  | binary (data : List Nat)
  | text (payload : String)
deriving DecidableEq

/-- Observable actions of the per-connection message handler. -/
inductive SessionEffect where
  | sendDisconnect (disconnectType : String) (reason : String)
  | closeTransport
  | processBinary (data : List Nat)
  | processText (payload : String)
deriving DecidableEq

/-- Modelled from the spec: `Session.sendDisconnect` lives in
`src/common/session.ts`, which is not part of the source snapshot (only its
callers are).  Per the spec, the synthesized transient session exists
solely to emit one error-typed disconnect message and close the
transport. -/
def sendDisconnectEffects (disconnectType reason : String) : List SessionEffect :=
  [SessionEffect.sendDisconnect disconnectType reason, SessionEffect.closeTransport]

/-- The `message` handler of `Server.start`: nothing when the socket is no
longer open; when no session is bound to the transport, a transient session
is synthesized only to send the `error` disconnect `Session does not
exist.`; otherwise the frame is dispatched to the bound session by kind. -/
def handleWsMessage (readyStateOpen : Bool) (sessionBound : Bool) (frame : InboundFrame) :
    List SessionEffect :=
  if !readyStateOpen then []
  else if !sessionBound then sendDisconnectEffects "error" "Session does not exist."
  else
    match frame with
    | InboundFrame.binary d => [SessionEffect.processBinary d]
    | InboundFrame.text t => [SessionEffect.processText t]

/-- Claim C7: any frame, binary or text, arriving on an open transport with
no bound session produces exactly one error-typed disconnect (`Session does
not exist.`) followed by a transport close, and no processing of the frame.
(The source handles a `close` text message on a sessionless transport the
same way, so the claim restricted to non-close messages holds.) -/
theorem c7_no_session_disconnect :
    ∀ frame, handleWsMessage true false frame =
      [SessionEffect.sendDisconnect "error" "Session does not exist.",
       SessionEffect.closeTransport] := by
  intro frame
  cases frame <;> rfl

/-- Claim C8 (code bug): a URL containing `/test` is upgraded without any
signature verification even when verification would fail, and the handler
consults nothing but the URL, so the escape hatch is unconditionally
enabled rather than excluded from production configuration; a non-test URL
with a failed verification gets the 401 and the destroyed socket. -/
theorem c8_test_bypass_code_bug :
    handleUpgrade "/test" (VerifyCode.failed "bad signature") = [UpgradeEffect.upgradeConnection] ∧
    (UpgradeEffect.runSignatureVerification ∉
      handleUpgrade "/test" (VerifyCode.failed "bad signature")) ∧
    handleUpgrade "/api/v1/voice" (VerifyCode.failed "bad signature") =
      [UpgradeEffect.runSignatureVerification, UpgradeEffect.writeHttp401,
       UpgradeEffect.destroySocket] := by
  refine ⟨rfl, ?_, rfl⟩
  decide

end AudioConnectorShim
